import Mathlib

/-!
Shallow embedding of the paddle-server PDF-processing pipeline.

The embedded code lives in two source files:
* `src/utils/utils.py` — image resizing (`resize_longest_side`), base64
  encoding (`encode_image_to_base64`), remote-call plumbing
  (`create_layout_parsing_payload`, `call_layout_parsing_api`,
  `process_layout_parsing_result`), PDF rendering (`pdf_to_images`),
  markdown extraction (`extract_markdown_from_result`) and the pipeline
  driver (`process_pdf_file`).
* `src/app.py` — the FastAPI handler `process_pdf` with its
  single-concurrency semaphore.  The handler's admission step,
  `await asyncio.wait_for(processing_semaphore.acquire(), timeout=0)`,
  deterministically raises `asyncio.TimeoutError` on Python ≥ 3.7 (with
  `timeout ≤ 0`, `wait_for` wraps the acquire coroutine in a task, finds
  the task not yet done, cancels it before it ever runs, and raises — also
  when the semaphore is free, leaving it free).  Every request is
  therefore answered 429, and the body of the `try` (filename check,
  temporary file, pipeline call, response construction, cleanup, release)
  is unreachable from the endpoint; the definitions embedding that body
  (`filename_is_pdf`, `build_success_response`) model dead code and are
  marked as such.

Modelling conventions:
* Python exceptions (AssertionError from the `assert` in
  `process_layout_parsing_result`, KeyError from a malformed response body,
  the `fitz.open` failure on a malformed PDF) become `Except PipelineError`.
* An image is its pixel geometry (width, height) plus an abstract content
  tag `data`; base64 encoding is modelled as a wrapper that keeps the
  content (the claims under study never inspect the base64 text itself).
* The remote layout-parsing service is an external collaborator and is
  passed in as a function from the request payload to an HTTP response.
* The scaled side in `resize_longest_side` — `int(other * scale)` with
  `scale = longest_side / longest` — is IEEE-754 double arithmetic in the
  source and its exact value is rounding-dependent (for example
  `int(77 * (1280 / 77))` is 1279 though the exact quotient is 1280, and
  `int(49 * (1 / 49))` is 0 though the exact value is 1).
  `resize_longest_side_float` is the branch-faithful embedding that takes
  the double computation as an abstract parameter; `resize_longest_side`
  idealizes it as the exact floor and serves only as an opaque per-page
  image transform in the pipeline-level developments, whose reasoning
  never depends on the computed dimensions.
* The filesystem state the pipeline touches is reduced to the two
  run-scoped artifacts: the `temp_pdf_images` directory and the uploaded
  PDF's `NamedTemporaryFile`.
-/

namespace PaddleServer

/-- A raster image: pixel geometry plus an abstract content tag standing
for the pixel buffer. -/
structure Image where
  width : Nat
  height : Nat
  data : Nat
  deriving Repr, DecidableEq

/-- Branch-faithful embedding of `resize_longest_side` (src/utils/utils.py
lines 19-48): if `width > height` the new width is the literal
`longest_side` parameter (line 37, no arithmetic) and the new height is
`int(height * scale)` with `scale = longest_side / width`; otherwise the
new height is the literal `longest_side` (line 42) and the new width is
`int(width * scale)`.  The `int(other * scale)` computations happen in
IEEE-754 double arithmetic, whose exact value a shallow embedding cannot
settle, so they are taken as the abstract parameter
`truncScaled other longest target` standing for
`int(other * (target / longest))`.  Resampling preserves the content
tag. -/
def resize_longest_side_float (truncScaled : Nat → Nat → Nat → Nat)
    (image : Image) (longest_side : Nat) : Image :=
  if image.width > image.height then
    { width := longest_side
      height := truncScaled image.height image.width longest_side
      data := image.data }
  else
    { width := truncScaled image.width image.height longest_side
      height := longest_side
      data := image.data }

/-- Idealized `resize_longest_side`: the instance of
`resize_longest_side_float` whose scaled side is the exact floor
`other * longest_side / longest` (what the double computation yields at
float-exact inputs; at other inputs the double value can differ by one
unit).  The pipeline-level developments use this function only as an
opaque per-page image transform — their reasoning never depends on the
computed dimensions, only on the preserved content tag. -/
def resize_longest_side (image : Image) (longest_side : Nat) : Image :=
  if image.width > image.height then
    { width := longest_side
      height := image.height * longest_side / image.width
      data := image.data }
  else
    { width := image.width * longest_side / image.height
      height := longest_side
      data := image.data }

/-- The idealized resize is the floor instance of the branch-faithful
float-abstract embedding. -/
theorem resize_longest_side_eq_float_floor (image : Image)
    (longest_side : Nat) :
    resize_longest_side image longest_side =
      resize_longest_side_float
        (fun other longest target => other * target / longest)
        image longest_side := by
  unfold resize_longest_side resize_longest_side_float
  split <;> rfl

/-- The base64 text produced by `encode_image_to_base64`
(src/utils/utils.py lines 50-78) on a cv2 image, modelled abstractly as a
wrapper that keeps the encoded image's content. -/
structure EncodedImage where
  content : Image
  deriving Repr, DecidableEq

/-- Embedding of `encode_image_to_base64` on the numpy-array branch (PNG encode then
base64): a lossless encoding of the pixel buffer. -/
def encode_image_to_base64 (image : Image) : EncodedImage :=
  { content := image }

/-- The JSON request body sent to the layout-parsing service:
`{"file": <base64 image>, "fileType": 1}`. -/
structure Payload where
  file : EncodedImage
  fileType : Nat
  deriving Repr, DecidableEq

/-- Embedding of `create_layout_parsing_payload` (src/utils/utils.py lines 80-94). -/
def create_layout_parsing_payload (image_data : EncodedImage)
    (file_type : Nat) : Payload :=
  { file := image_data, fileType := file_type }

/-- One entry of the remote service's `layoutParsingResults` array; the
pipeline only reads its `markdown.text` field. -/
structure LayoutEntry where
  markdown_text : String
  deriving Repr, DecidableEq

/-- The `result` object of a well-formed remote response body. -/
structure ApiResult where
  layoutParsingResults : List LayoutEntry
  deriving Repr, DecidableEq

/-- An HTTP response from the layout-parsing service: a status code and,
when the body is a well-formed result envelope, its `result` object
(`none` models a body on which `response.json()["result"]` raises). -/
structure HttpResponse where
  status_code : Nat
  body : Option ApiResult
  deriving Repr, DecidableEq

/-- The Python exceptions that can escape the pipeline. -/
inductive PipelineError where
  /-- AssertionError from `assert response.status_code == 200`. -/
  | assertionError : PipelineError
  /-- KeyError/format failure reading `response.json()["result"]`. -/
  | formatError : PipelineError
  /-- Failure of `fitz.open` on a malformed PDF byte stream. -/
  | documentOpenError : PipelineError
  deriving Repr, DecidableEq

/-- Embedding of `process_layout_parsing_result` (src/utils/utils.py lines 110-121):
`assert response.status_code == 200` raises AssertionError on any other
status; otherwise `response.json()["result"]` is returned, raising when
the body has no well-formed result envelope. -/
def process_layout_parsing_result (response : HttpResponse) :
    Except PipelineError ApiResult :=
  if response.status_code = 200 then
    match response.body with
    | some r => Except.ok r
    | none => Except.error PipelineError.formatError
  else
    Except.error PipelineError.assertionError

/-- Embedding of `extract_markdown_from_result` (src/utils/utils.py lines 168-184):
builds the insertion-ordered dict `{"page1": entry1.markdown.text, ...}`
over the `layoutParsingResults` entries, modelled as the ordered list of
its items. -/
def extract_markdown_from_result (result : ApiResult) :
    List (String × String) :=
  (List.range result.layoutParsingResults.length).zip
      result.layoutParsingResults |>.map
    (fun p => ("page" ++ toString (p.1 + 1), p.2.markdown_text))

/-- One page of a valid PDF as the pipeline sees it: `pdf_to_images` saves
it as `page_{i+1:03d}.png` and the per-page loop then calls
`cv2.imread` on that path.  `imread` is what that call returns — `none`
models `cv2.imread` returning `None` (unreadable image file). -/
structure Page where
  imread : Option Image
  deriving Repr, DecidableEq

/-- The byte stream handed to `fitz.open`: either a valid PDF with its
ordered page list, or a malformed stream on which `fitz.open` raises. -/
inductive PdfInput where
  | valid : List Page → PdfInput
  | malformed : PdfInput
  deriving Repr, DecidableEq

/-- The run-scoped filesystem artifacts: the `temp_pdf_images` directory
created by `pdf_to_images` and the uploaded PDF's temporary file created
by the app handler. -/
structure FsState where
  temp_dir_exists : Bool
  temp_pdf_exists : Bool
  deriving Repr, DecidableEq

/-- Embedding of `pdf_to_images` (src/utils/utils.py lines 123-166): creates the output
directory (`mkdir(exist_ok=True)`), then opens the PDF — raising on a
malformed stream — and renders each page in ascending order into that
directory, returning the ordered page list (empty for a zero-page PDF:
the loop `for i in range(len(doc))` runs zero times). -/
def pdf_to_images (pdf_input : PdfInput) (st : FsState) :
    Except PipelineError (List Page) × FsState :=
  let st1 : FsState := { st with temp_dir_exists := true }
  match pdf_input with
  | PdfInput.malformed => (Except.error PipelineError.documentOpenError, st1)
  | PdfInput.valid pages => (Except.ok pages, st1)

/-- One aggregated result entry as built at src/utils/utils.py lines
246-259: `{"page": i+1, "ocrContent": {"backend": "pipeline", "version":
"2.5.4", "results": {"image": {"md_content": <markdown>}}}}`. -/
structure ImageField where
  md_content : String
  deriving Repr, DecidableEq

/-- The `results` object nested in `ocrContent`. -/
structure ResultsField where
  image : ImageField
  deriving Repr, DecidableEq

/-- The `ocrContent` object of one aggregated result entry. -/
structure OcrContent where
  backend : String
  version : String
  results : ResultsField
  deriving Repr, DecidableEq

/-- One element of the `all_markdowns` array returned by
`process_pdf_file`. -/
structure PageJson where
  page : Nat
  ocrContent : OcrContent
  deriving Repr, DecidableEq

/-- Builds the `page_json` dict of src/utils/utils.py lines 247-258 for
page index `i` (0-based loop index) and one extracted markdown string. -/
def mk_page_json (i : Nat) (content : String) : PageJson :=
  { page := i + 1
    ocrContent :=
      { backend := "pipeline"
        version := "2.5.4"
        results := { image := { md_content := content } } } }

/-- The per-page loop of `process_pdf_file` (src/utils/utils.py lines
209-260), over the enumerated page list starting at 0-based index `i`:
read the page image (`continue` on a `None` read, skipping the page
without any record), resize, encode, build the payload, call the remote
service, process its response — any raised exception aborts the whole
loop — and append one `page_json` per extracted markdown entry. -/
def page_loop (api : Payload → HttpResponse) (longest_side : Nat) :
    Nat → List Page → Except PipelineError (List PageJson)
  | _, [] => Except.ok []
  | i, pg :: rest =>
    match pg.imread with
    | none => page_loop api longest_side (i + 1) rest
    | some image =>
      let resized := resize_longest_side image longest_side
      let image_data := encode_image_to_base64 resized
      let payload := create_layout_parsing_payload image_data 1
      let response := api payload
      match process_layout_parsing_result response with
      | Except.error e => Except.error e
      | Except.ok result =>
        let page_markdowns := extract_markdown_from_result result
        let page_jsons := page_markdowns.map (fun pm => mk_page_json i pm.2)
        match page_loop api longest_side (i + 1) rest with
        | Except.error e => Except.error e
        | Except.ok restJsons => Except.ok (page_jsons ++ restJsons)

/-- Embedding of `process_pdf_file` (src/utils/utils.py lines 186-277): render the PDF
into the temporary image directory, run the per-page loop, and in the
`finally` clause remove the temporary directory on every exit path.  The
function's JSON serialization of `all_markdowns` (and the caller's
`json.loads`) round-trips, so the result is modelled as the list itself. -/
def process_pdf_file (api : Payload → HttpResponse) (pdf_input : PdfInput)
    (longest_side : Nat) (st : FsState) :
    Except PipelineError (List PageJson) × FsState :=
  let rendered := pdf_to_images pdf_input st
  let result :=
    match rendered.1 with
    | Except.error e => Except.error e
    | Except.ok pages => page_loop api longest_side 0 pages
  (result, { rendered.2 with temp_dir_exists := false })

/-- The single-concurrency semaphore of src/app.py line 29, reduced to its
held/free flag (`asyncio.Semaphore(1)` is locked iff its one slot is
taken). -/
structure GateState where
  locked : Bool
  deriving Repr, DecidableEq

/-- The state a `/process-pdf` request can read or write: the shared
admission semaphore and the run-scoped filesystem artifacts. -/
structure ServerState where
  gate : GateState
  fs : FsState
  deriving Repr, DecidableEq

/-- The 200 response body built at src/app.py lines 107-115. -/
structure SuccessResponse where
  success : Bool
  filename : String
  total_pages : Nat
  results : List PageJson
  deriving Repr, DecidableEq

/-- What a `/process-pdf` call returns to the client: the 200 JSON
response, or an `HTTPException` with its status code. -/
inductive HttpOutcome where
  | ok : SuccessResponse → HttpOutcome
  | httpError : Nat → HttpOutcome
  deriving Repr, DecidableEq

/-- Embedding of the check `filename.lower().endswith(".pdf")` (src/app.py
line 82), written over the string's character list (lowercase each
character, then test the four-character suffix) so that it evaluates by
kernel reduction. -/
def filename_is_pdf (filename : String) : Bool :=
  ".pdf".data.isSuffixOf (filename.data.map Char.toLower)

/-- The 200-response construction of src/app.py lines 104-115:
`total_pages` is `len(result_data)` and `results` is `result_data`
itself, after the `json.dumps`/`json.loads` round trip.  This code is
unreachable from the endpoint (see `process_pdf`): it is embedded to
state what the construction, as written, computes. -/
def build_success_response (filename : String)
    (result_data : List PageJson) : SuccessResponse :=
  { success := true
    filename := filename
    total_pages := result_data.length
    results := result_data }

/-- The `/process-pdf` handler `process_pdf` (src/app.py lines 43-129).

If `processing_semaphore.locked()` (lines 63, 73-78) the handler raises
`HTTPException(429)` at once, touching no state.

Otherwise it runs `await asyncio.wait_for(processing_semaphore.acquire(),
timeout=0)` (line 66).  On Python >= 3.7, `wait_for` with `timeout <= 0`
wraps the acquire coroutine in a task, observes that the task is not yet
done, cancels it before the acquire ever runs, and raises
`asyncio.TimeoutError` — deterministically, also when the semaphore is
free, and without consuming a slot (verified on the 3.11 runtime: the
semaphore reports unlocked afterwards).  The `except asyncio.TimeoutError`
branch (lines 67-72) then raises `HTTPException(429)`.

So every request is answered 429 with all state unchanged, and the body
of the `try` at lines 80-129 — the filename check with its
`HTTPException(400)`, the `NamedTemporaryFile`, the `process_pdf_file`
call, the response construction, both `finally` clauses and the semaphore
release — is unreachable from this endpoint. -/
def process_pdf (api : Payload → HttpResponse) (filename : String)
    (pdf_input : PdfInput) (longest_side : Nat) (st : ServerState) :
    HttpOutcome × ServerState :=
  if st.gate.locked then
    (HttpOutcome.httpError 429, st)
  else
    (HttpOutcome.httpError 429, st)

/-! Concrete inputs used by counterexamples and witnesses. -/

/-- A filesystem state with no leftover run artifacts. -/
def fs_clean : FsState := { temp_dir_exists := false, temp_pdf_exists := false }

/-- A server state with a free admission semaphore and a clean
filesystem. -/
def state_clean : ServerState := { gate := { locked := false }, fs := fs_clean }

/-- A page whose saved image reads back fine, with content tag `n`. -/
def pgOk (n : Nat) : Page :=
  { imread := some { width := 100, height := 200, data := n } }

/-- A remote service that always answers HTTP 500 (no result envelope). -/
def api_fail : Payload → HttpResponse :=
  fun _ => { status_code := 500, body := none }

/-- A remote service that always answers 200 with exactly one
layout-parsing entry whose markdown text is "md". -/
def api_ok1 : Payload → HttpResponse :=
  fun _ =>
    { status_code := 200
      body := some { layoutParsingResults := [{ markdown_text := "md" }] } }

/-- A remote service that answers 200 and returns the markdown
`"Page N"` for the page image whose content tag is `N` — the C7 scenario
service. -/
def api_pages : Payload → HttpResponse :=
  fun p =>
    { status_code := 200
      body := some { layoutParsingResults :=
        [{ markdown_text := "Page " ++ toString p.file.content.data }] } }

/-! Helper lemmas shared across claims. -/

/-- With a busy gate, the handler returns 429 and leaves all state
untouched. -/
theorem process_pdf_busy (api : Payload → HttpResponse) (filename : String)
    (pdf_input : PdfInput) (longest_side : Nat) (st : ServerState)
    (h : st.gate.locked = true) :
    process_pdf api filename pdf_input longest_side st =
      (HttpOutcome.httpError 429, st) := by
  simp [process_pdf, h]

/-- Every request — free gate or busy — is answered 429 with all state
unchanged: the admission step fails on both branches. -/
theorem process_pdf_always_429 (api : Payload → HttpResponse)
    (filename : String) (pdf_input : PdfInput) (longest_side : Nat)
    (st : ServerState) :
    process_pdf api filename pdf_input longest_side st =
      (HttpOutcome.httpError 429, st) := by
  unfold process_pdf
  split <;> rfl

/-- The `finally` of `process_pdf_file` removes the temporary image
directory on every exit path. -/
theorem process_pdf_file_removes_dir (api : Payload → HttpResponse)
    (pdf_input : PdfInput) (longest_side : Nat) (st : FsState) :
    (process_pdf_file api pdf_input longest_side st).2.temp_dir_exists =
      false := rfl

/-- C5: while another run holds the admission gate, a `/process-pdf`
request is rejected within the current call with status 429, enters no
pipeline stage, and changes no state, so the in-flight run is
unaffected. -/
theorem busy_request_rejected_429 (api : Payload → HttpResponse)
    (filename : String) (pdf_input : PdfInput) (longest_side : Nat)
    (st : ServerState) (h : st.gate.locked = true) :
    process_pdf api filename pdf_input longest_side st =
      (HttpOutcome.httpError 429, st) :=
  process_pdf_busy api filename pdf_input longest_side st h

/-- Witness for C5 at a concrete busy state. -/
theorem busy_request_rejected_429_witness :
    ({ gate := { locked := true }, fs := fs_clean } : ServerState).gate.locked
        = true ∧
      process_pdf api_ok1 "doc.pdf" (PdfInput.valid [pgOk 1]) 1280
          { gate := { locked := true }, fs := fs_clean } =
        (HttpOutcome.httpError 429,
          { gate := { locked := true }, fs := fs_clean }) :=
  ⟨rfl, busy_request_rejected_429 api_ok1 "doc.pdf" (PdfInput.valid [pgOk 1])
    1280 { gate := { locked := true }, fs := fs_clean } rfl⟩

/-- C4 (behavior at the failing input): with the gate free, the very
request that should acquire it is rejected 429 — `wait_for(acquire(),
timeout=0)` deterministically raises TimeoutError before the acquire ever
runs — and the gate is left free and untouched.  No run ever acquires the
gate, so the acquire/release lifecycle the claim describes (the `finally`
release at src/app.py:127-129) is unreachable from the endpoint, and
every next acquisition attempt fails the same way. -/
theorem gate_never_acquired :
    state_clean.gate.locked = false ∧
      process_pdf api_ok1 "doc.pdf" (PdfInput.valid [pgOk 1]) 1280
          state_clean = (HttpOutcome.httpError 429, state_clean) ∧
      (process_pdf api_ok1 "doc.pdf" (PdfInput.valid [pgOk 1]) 1280
          state_clean).2.gate.locked = false :=
  ⟨rfl, rfl, rfl⟩

/-- C10 (behavior at the failing input): the program produces no 200
response at all — a request that should exhibit the invariant is answered
429 at admission — so the invariant holds only of the unreachable
response construction, in which `total_pages` is by definition
`len(result_data)` and `results` is `result_data` itself, evaluated here
on a concrete record list. -/
theorem success_response_never_produced :
    process_pdf api_ok1 "report.pdf" (PdfInput.valid [pgOk 1]) 1280
        state_clean = (HttpOutcome.httpError 429, state_clean) ∧
      (build_success_response "report.pdf"
          [mk_page_json 0 "md"]).total_pages =
        (build_success_response "report.pdf"
            [mk_page_json 0 "md"]).results.length :=
  ⟨rfl, rfl⟩

/-- C8 (behavior at the failing input): uploading a valid zero-page PDF
is answered 429, not the claimed 200 with `total_pages` 0 — no request
ever reaches the pipeline — although the pipeline function itself,
applied to a zero-page document, does return the empty record list
without error (the render loop runs zero times). -/
theorem zero_page_pdf_gets_429 :
    process_pdf api_ok1 "empty.pdf" (PdfInput.valid []) 1280 state_clean =
        (HttpOutcome.httpError 429, state_clean) ∧
      (process_pdf_file api_ok1 (PdfInput.valid []) 1280 fs_clean).1 =
        Except.ok [] :=
  ⟨rfl, rfl⟩

/-- C3 (behavior at the failing input): uploading the non-PDF filename
"notes.txt" is answered 429, not 400 — the admission step raises on every
request, so the filename check (and its `HTTPException(400)`, which the
blanket `except Exception` would anyway re-raise as 500) is never
reached.  The gate state is indeed net unchanged, as the second half of
the claim says. -/
theorem non_pdf_filename_gets_429 :
    filename_is_pdf "notes.txt" = false ∧
      process_pdf api_ok1 "notes.txt" (PdfInput.valid [pgOk 1]) 1280
          state_clean = (HttpOutcome.httpError 429, state_clean) :=
  ⟨by decide, rfl⟩

/-- The three aggregated records of the C7 scenario. -/
def results3 : List PageJson :=
  [{ page := 1
     ocrContent :=
       { backend := "pipeline", version := "2.5.4"
         results := { image := { md_content := "Page 1" } } } },
   { page := 2
     ocrContent :=
       { backend := "pipeline", version := "2.5.4"
         results := { image := { md_content := "Page 2" } } } },
   { page := 3
     ocrContent :=
       { backend := "pipeline", version := "2.5.4"
         results := { image := { md_content := "Page 3" } } } }]

/-- C7 (behavior at the failing input): the 3-page scenario request is
answered 429 — no run ever starts, so the endpoint never returns the
claimed 200 — although the pipeline function itself, applied to the same
document and service, produces exactly the three claimed records, with
entry index 1 carrying md_content "Page 2". -/
theorem three_page_scenario_gets_429 :
    process_pdf api_pages "doc.pdf"
        (PdfInput.valid [pgOk 1, pgOk 2, pgOk 3]) 1280 state_clean =
      (HttpOutcome.httpError 429, state_clean) ∧
    (process_pdf_file api_pages (PdfInput.valid [pgOk 1, pgOk 2, pgOk 3])
        1280 fs_clean).1 = Except.ok results3 ∧
    (results3[1]?).map (fun r => r.ocrContent.results.image.md_content) =
      some "Page 2" :=
  ⟨rfl, rfl, rfl⟩

/-- C9 (behavior at the failing input): via the endpoint the claimed
create-then-remove lifecycle never executes — the request is rejected 429
at admission before the uploaded-PDF temporary file or the image
directory is created, leaving the filesystem untouched — while the
pipeline function itself, when invoked directly, does remove its
temporary image directory on every exit path, shown here on an aborting
run and on a successful run. -/
theorem artifacts_never_created_via_endpoint :
    (process_pdf api_fail "doc.pdf" (PdfInput.valid [pgOk 1]) 1280
        state_clean).2.fs = fs_clean ∧
      (process_pdf_file api_fail (PdfInput.valid [pgOk 1]) 1280
          fs_clean).2.temp_dir_exists = false ∧
      (process_pdf_file api_ok1 (PdfInput.valid [pgOk 1]) 1280
          fs_clean).2.temp_dir_exists = false :=
  ⟨rfl, rfl, rfl⟩

/-! Claim C1: what a remote-call failure on one page does to the run. -/

/-- The request payload the per-page loop builds for one page image:
resize to the longest side, base64-encode, wrap with fileType 1. -/
def page_payload (longest_side : Nat) (image : Image) : Payload :=
  create_layout_parsing_payload
    (encode_image_to_base64 (resize_longest_side image longest_side)) 1

/-- A page passes through the loop without raising: if its image reads
back, the remote call for it answers 200 with a well-formed body. -/
def page_processes_cleanly (api : Payload → HttpResponse)
    (longest_side : Nat) (pg : Page) : Prop :=
  ∀ image, pg.imread = some image →
    (api (page_payload longest_side image)).status_code = 200 ∧
    (api (page_payload longest_side image)).body ≠ none

/-- Any non-200 remote answer for a page whose image reads back makes the
whole per-page loop raise AssertionError, whatever comes after that page
and however many clean pages precede it. -/
theorem page_loop_aborts (api : Payload → HttpResponse) (longest_side : Nat)
    (pk : Page) (post : List Page) (image : Image)
    (hk : pk.imread = some image)
    (hfail : (api (page_payload longest_side image)).status_code ≠ 200) :
    ∀ (pre : List Page) (i : Nat),
      (∀ pg ∈ pre, page_processes_cleanly api longest_side pg) →
      page_loop api longest_side i (pre ++ pk :: post) =
        Except.error PipelineError.assertionError := by
  intro pre
  induction pre with
  | nil =>
    intro i _
    have hres : process_layout_parsing_result
        (api (page_payload longest_side image)) =
        Except.error PipelineError.assertionError := by
      unfold process_layout_parsing_result
      rw [if_neg hfail]
    simp only [page_payload] at hres
    simp only [List.nil_append, page_loop, hk]
    rw [hres]
  | cons p pre ih =>
    intro i hclean
    have hrest : ∀ pg ∈ pre, page_processes_cleanly api longest_side pg :=
      fun pg hpg => hclean pg (List.mem_cons_of_mem p hpg)
    simp only [List.cons_append, page_loop]
    cases hpi : p.imread with
    | none => exact ih (i + 1) hrest
    | some img =>
      obtain ⟨h200, hbody⟩ := hclean p (List.mem_cons_self p pre) img hpi
      cases hb : (api (page_payload longest_side img)).body with
      | none => exact absurd hb hbody
      | some r =>
        have hres : process_layout_parsing_result
            (api (page_payload longest_side img)) = Except.ok r := by
          unfold process_layout_parsing_result
          rw [if_pos h200, hb]
        simp only [page_payload] at hres
        dsimp only
        rw [hres]
        simp only [List.append_eq]
        rw [ih (i + 1) hrest]

/-- Counterexample to C1 as stated: on a 2-page document whose layout
service answers HTTP 500, the remote failure on page 1 makes the run
return the raised AssertionError — the run does not continue, produces no
aggregated record for any page, and page 2 is never processed. -/
theorem remote_failure_counterexample :
    (process_pdf_file api_fail (PdfInput.valid [pgOk 1, pgOk 2]) 1280
        fs_clean).1 = Except.error PipelineError.assertionError := by
  rfl

/-- C1 (amended): a remote-call failure on page k (non-200 HTTP status)
raises an AssertionError that aborts the entire run: no failed PageRecord
is produced for page k, all earlier pages' partial results are discarded,
and the pages after k are never processed. -/
theorem remote_failure_aborts_run (api : Payload → HttpResponse)
    (longest_side : Nat) (st : FsState) (pre post : List Page) (pk : Page)
    (image : Image)
    (hclean : ∀ pg ∈ pre, page_processes_cleanly api longest_side pg)
    (hk : pk.imread = some image)
    (hfail : (api (page_payload longest_side image)).status_code ≠ 200) :
    (process_pdf_file api (PdfInput.valid (pre ++ pk :: post)) longest_side
        st).1 = Except.error PipelineError.assertionError := by
  simp only [process_pdf_file, pdf_to_images]
  exact page_loop_aborts api longest_side pk post image hk hfail pre 0 hclean

/-- Witness for C1 at a concrete run: an always-500 service, an empty
clean prefix, failing page `pgOk 1`, and one following page. -/
theorem remote_failure_aborts_run_witness :
    (pgOk 1).imread = some { width := 100, height := 200, data := 1 } ∧
      (api_fail
          (page_payload 1280 { width := 100, height := 200, data := 1 })
        ).status_code ≠ 200 ∧
      (process_pdf_file api_fail
          (PdfInput.valid ([] ++ pgOk 1 :: [pgOk 2])) 1280 fs_clean).1 =
        Except.error PipelineError.assertionError :=
  ⟨rfl, by decide,
    remote_failure_aborts_run api_fail 1280 fs_clean [] [pgOk 2] (pgOk 1)
      { width := 100, height := 200, data := 1 }
      (fun pg hpg => absurd hpg (List.not_mem_nil pg)) rfl (by decide)⟩

/-! Claim C2: how many aggregated records a run produces. -/

/-- One extracted markdown item per layoutParsingResults entry. -/
theorem extract_markdown_length (r : ApiResult) :
    (extract_markdown_from_result r).length =
      r.layoutParsingResults.length := by
  simp [extract_markdown_from_result]

/-- A page for which the whole per-page stage succeeds with exactly one
parsing result: its image reads back, and the remote call for it answers
200 with a well-formed body holding exactly one layoutParsingResults
entry. -/
def page_fully_succeeds (api : Payload → HttpResponse) (longest_side : Nat)
    (pg : Page) : Prop :=
  ∃ image r, pg.imread = some image ∧
    api (page_payload longest_side image) =
      { status_code := 200, body := some r } ∧
    r.layoutParsingResults.length = 1

/-- If every page fully succeeds, the loop returns one record per page and
the page indices continue the enumeration: starting at 0-based index `i`,
they are i+1, i+2, …, i+N. -/
theorem page_loop_all_ok (api : Payload → HttpResponse)
    (longest_side : Nat) :
    ∀ (pages : List Page) (i : Nat),
      (∀ pg ∈ pages, page_fully_succeeds api longest_side pg) →
      ∃ l, page_loop api longest_side i pages = Except.ok l ∧
        l.length = pages.length ∧
        l.map PageJson.page = List.range' (i + 1) pages.length := by
  intro pages
  induction pages with
  | nil => exact fun i _ => ⟨[], rfl, rfl, rfl⟩
  | cons p rest ih =>
    intro i hall
    obtain ⟨image, r, hpi, hapi, hlen⟩ := hall p (List.mem_cons_self p rest)
    obtain ⟨l, hl, hlen2, hmap⟩ :=
      ih (i + 1) (fun pg hpg => hall pg (List.mem_cons_of_mem p hpg))
    obtain ⟨e, he⟩ := List.length_eq_one.mp hlen
    refine ⟨mk_page_json i e.markdown_text :: l, ?_, ?_, ?_⟩
    · have hres : process_layout_parsing_result
          (api (page_payload longest_side image)) = Except.ok r := by
        rw [hapi]
        rfl
      simp only [page_payload] at hres
      simp only [page_loop, hpi]
      rw [hres]
      dsimp only
      rw [hl]
      dsimp only
      simp only [extract_markdown_from_result, he]
      rfl
    · simp [hlen2]
    · simp only [List.map_cons, hmap, List.length_cons]
      rw [List.range'_succ]
      rfl

/-- Counterexample to C2 as stated: on a 2-page document whose first
page's saved image fails to read back, the run succeeds but yields only
one aggregated record — for page 2 — so the result has 1 record instead
of N = 2 and its page indices are [2], not the contiguous 1..2. -/
theorem dropped_page_counterexample :
    (process_pdf_file api_ok1
        (PdfInput.valid [{ imread := none }, pgOk 2]) 1280 fs_clean).1 =
      Except.ok [mk_page_json 1 "md"] ∧
    (mk_page_json 1 "md").page = 2 ∧
    [mk_page_json 1 "md"].length = 1 := ⟨rfl, rfl, rfl⟩

/-- C2 (amended): when every rendered page's image reads back and every
remote call answers 200 with exactly one parsing result, the aggregated
result holds exactly N records whose page indices form the contiguous
sequence 1..N in ascending order.  (Without that proviso the property
fails: a page whose image read fails is silently skipped with no record,
and a failed remote call aborts the run.) -/
theorem n_records_when_all_pages_succeed (api : Payload → HttpResponse)
    (pages : List Page) (longest_side : Nat) (st : FsState)
    (hall : ∀ pg ∈ pages, page_fully_succeeds api longest_side pg) :
    ∃ l, (process_pdf_file api (PdfInput.valid pages) longest_side st).1 =
        Except.ok l ∧
      l.length = pages.length ∧
      l.map PageJson.page = List.range' 1 pages.length := by
  obtain ⟨l, hl, h1, h2⟩ := page_loop_all_ok api longest_side pages 0 hall
  exact ⟨l, by simpa [process_pdf_file, pdf_to_images] using hl, h1, h2⟩

/-- Witness for C2 on a concrete 2-page document with an always-succeeding
one-entry service. -/
theorem n_records_when_all_pages_succeed_witness :
    (∀ pg ∈ [pgOk 1, pgOk 2], page_fully_succeeds api_ok1 1280 pg) ∧
      ∃ l, (process_pdf_file api_ok1 (PdfInput.valid [pgOk 1, pgOk 2]) 1280
          fs_clean).1 = Except.ok l ∧
        l.length = [pgOk 1, pgOk 2].length ∧
        l.map PageJson.page = List.range' 1 [pgOk 1, pgOk 2].length := by
  have hall : ∀ pg ∈ [pgOk 1, pgOk 2], page_fully_succeeds api_ok1 1280 pg := by
    intro pg hpg
    simp only [List.mem_cons, List.not_mem_nil, or_false] at hpg
    rcases hpg with h | h <;> subst h
    · exact ⟨{ width := 100, height := 200, data := 1 },
        { layoutParsingResults := [{ markdown_text := "md" }] },
        rfl, rfl, rfl⟩
    · exact ⟨{ width := 100, height := 200, data := 2 },
        { layoutParsingResults := [{ markdown_text := "md" }] },
        rfl, rfl, rfl⟩
  exact ⟨hall, n_records_when_all_pages_succeed api_ok1 [pgOk 1, pgOk 2]
    1280 fs_clean hall⟩

/-! Claim C6: the normalization dimension formula. -/

/-- Round-half-up of the exact rational a/b, computed as ⌊(2a+b)/(2b)⌋ —
the `round` of the claim's dimension formula.  (Python's round differs
only at exact halves, where it rounds half to even; at the comparison
point used below, 1.5, both conventions give 2.) -/
def round_div (a b : Nat) : Nat := (2 * a + b) / (2 * b)

/-- The output-dimension computation as the CLAIM words it, for comparison
with `resize_longest_side`: scale = target / max(width, height), output =
round(width·scale) × round(height·scale). -/
def spec_resize_dims (width height target : Nat) : Nat × Nat :=
  (round_div (width * target) (max width height),
   round_div (height * target) (max width height))

/-- Counterexample to C6 as stated, at a float-exact input: for a 1×2
image and target T = 3 the double computation is exact (3/2 = 1.5 and
1·1.5 = 1.5 are representable doubles, so Python's int(1·(3/2)) is the
exact floor 1, the instance evaluated here), and the code yields width 1
where the claim's round(width·scale) = round(1.5) = 2. -/
theorem resize_round_counterexample :
    resize_longest_side_float
        (fun other longest target => other * target / longest)
        { width := 1, height := 2, data := 0 } 3 =
      { width := 1, height := 3, data := 0 } ∧
    spec_resize_dims 1 2 3 = (2, 3) := ⟨rfl, rfl⟩

/-- C6 (amended): whatever values the double-precision scaled-side
computation takes, normalization assigns the longest side the literal
target: for width > height the output width is exactly T, otherwise the
output height is exactly T.  The other side is int(other·(T/longest))
computed in doubles — not the claim's round(other·scale), and not even
always the exact floor (int(77·(1280/77)) = 1279 though the exact
quotient is 1280) — so no exact formula for it holds of the program. -/
theorem resize_sets_longest_to_target (truncScaled : Nat → Nat → Nat → Nat)
    (image : Image) (target : Nat) (hw : 0 < image.width)
    (hh : 0 < image.height) (ht : 0 < target) :
    (image.height < image.width →
      (resize_longest_side_float truncScaled image target).width =
        target) ∧
    (image.width ≤ image.height →
      (resize_longest_side_float truncScaled image target).height =
        target) := by
  constructor
  · intro hlt
    unfold resize_longest_side_float
    rw [if_pos hlt]
  · intro hle
    unfold resize_longest_side_float
    rw [if_neg (Nat.not_lt.mpr hle)]

/-- Witness for C6 at a 4×3 image with target 10 and the exact-floor
instance of the double computation. -/
theorem resize_sets_longest_to_target_witness :
    0 < (4 : Nat) ∧ 0 < (3 : Nat) ∧ 0 < (10 : Nat) ∧
      (((3 : Nat) < 4 →
        (resize_longest_side_float
            (fun other longest target => other * target / longest)
            { width := 4, height := 3, data := 0 } 10).width = 10) ∧
       ((4 : Nat) ≤ 3 →
        (resize_longest_side_float
            (fun other longest target => other * target / longest)
            { width := 4, height := 3, data := 0 } 10).height = 10)) :=
  ⟨by decide, by decide, by decide,
    resize_sets_longest_to_target
      (fun other longest target => other * target / longest)
      { width := 4, height := 3, data := 0 } 10 (by decide) (by decide)
      (by decide)⟩

end PaddleServer
